import Mathlib

/-!
Verification of the TokenTracker pricing core (`my_agent/calculators.py` and
`my_agent/pricing_updater.py`).

Python floats are modelled as rationals (`ℚ`), Python dicts holding pricing
records as association lists, fields accessed with `dict.get` as `Option`
fields, and raised exceptions (`KeyError`, `ValueError`, `ZeroDivisionError`)
as the error side of `Except`.  `int(x)` is truncation toward zero (`pyInt`).
Timestamps are kept abstract: an instant is an integer number of seconds and
ISO-8601 parsing (`datetime.fromisoformat`) is a parameter
`parse : String → Option ℤ`.
-/

namespace TokenTracker

/-- Error side of the calculators: the exception classes the Python code can
raise, with the `KeyError` / `ValueError` message text. -/
inductive CalcError where
  | keyError (msg : String)
  | valueError (msg : String)
  | zeroDivision
deriving DecidableEq, Repr

/-- Decidable equality for `Except`, so closed runs of the calculators can be
checked by `decide`. -/
instance {ε α : Type} [DecidableEq ε] [DecidableEq α] :
    DecidableEq (Except ε α) := fun x y =>
  match x, y with
  | .ok a, .ok b => decidable_of_iff (a = b) (by simp)
  | .error a, .error b => decidable_of_iff (a = b) (by simp)
  | .ok _, .error _ => isFalse (by simp)
  | .error _, .ok _ => isFalse (by simp)

/-- `metadata` block of the pricing document: `last_successful_update` and
`currency`, both optional. -/
structure Metadata where
  last_successful_update : Option String
  currency : Option String
deriving DecidableEq, Repr

/-- An entry of `pricing.models`: the canonical LLM pricing record.  The two
prices are read with `pricing["..."]` (required); the remaining fields are
read with `pricing.get` and hence optional. -/
structure ModelPricing where
  input_per_1m : ℚ
  output_per_1m : ℚ
  currency : Option String
  source : Option String
  retrieved_at : Option String
deriving DecidableEq, Repr

/-- An entry of `pricing.servers.<provider>`: the canonical server-plan
record.  `base_monthly` is required; the per-GB prices are read with
`pricing.get(..., 0.0)` and hence optional. -/
structure ServerPricing where
  base_monthly : ℚ
  storage_gb_price : Option ℚ
  traffic_gb_price : Option ℚ
  currency : Option String
  source : Option String
  retrieved_at : Option String
deriving DecidableEq, Repr

/-- The pricing document as the calculators read it (`database.json` in the
canonical `models` / `servers` shape of the spec, §6). -/
structure Database where
  metadata : Metadata
  models : List (String × ModelPricing)
  servers : List (String × List (String × ServerPricing))
deriving DecidableEq, Repr

/-- Python `int(q)` on a float: truncation toward zero. -/
def pyInt (q : ℚ) : ℤ :=
  if q < 0 then ⌈q⌉ else ⌊q⌋

/-- `_ensure_positive` from `calculators.py`: rejects a non-positive value
with a `ValueError`, returns it unchanged otherwise. -/
def _ensure_positive (value : ℚ) (field : String) : Except CalcError ℚ :=
  if value ≤ 0 then
    .error (.valueError (field ++ " must be greater than zero"))
  else
    .ok value

/-- `_resolve_model_pricing` from `calculators.py`: looks the model up in
`pricing.models` and raises a `KeyError` when it is absent. -/
def _resolve_model_pricing (db : Database) (model : String) :
    Except CalcError (ModelPricing × Metadata) :=
  match db.models.lookup model with
  | none => .error (.keyError s!"Model `{model}` not found in pricing database.")
  | some p => .ok (p, db.metadata)

/-- `_resolve_server_pricing` from `calculators.py`: looks the provider up in
`pricing.servers` and the plan up under it; raises a `KeyError` naming the
plan and the provider when either is absent. -/
def _resolve_server_pricing (db : Database) (provider plan : String) :
    Except CalcError (ServerPricing × Metadata) :=
  match db.servers.lookup provider with
  | none => .error (.keyError s!"Plan `{plan}` for provider `{provider}` not found.")
  | some plans =>
    match plans.lookup plan with
    | none => .error (.keyError s!"Plan `{plan}` for provider `{provider}` not found.")
    | some p => .ok (p, db.metadata)

/-- Result dictionary of `estimate_llm_cost`. -/
structure LlmCostResult where
  monthly_cost : ℚ
  daily_cost : ℚ
  input_cost : ℚ
  output_cost : ℚ
  total_tokens : ℚ
  price_per_1m : ℚ
  currency : String
  pricing_source : Option String
  retrieved_at : Option String
  metadata : Metadata
deriving DecidableEq, Repr

/-- `estimate_llm_cost` from `calculators.py`.  The model is resolved first;
then the numeric arguments are validated, `days` is truncated with `int`,
`retry_rate` is clamped to `≥ 0`, and the token totals and costs are
computed.  `monthly_cost / days` raises `ZeroDivisionError` when the
truncated `days` is zero. -/
def estimate_llm_cost (db : Database) (model : String)
    (avg_tokens_per_call calls_per_day days : ℚ)
    (include_output : Bool) (retry_rate : ℚ) :
    Except CalcError LlmCostResult :=
  match _resolve_model_pricing db model with
  | .error e => .error e
  | .ok (pricing, metadata) =>
    match _ensure_positive avg_tokens_per_call "avg_tokens_per_call" with
    | .error e => .error e
    | .ok avg_tokens_per_call =>
      match _ensure_positive calls_per_day "calls_per_day" with
      | .error e => .error e
      | .ok calls_per_day =>
        match _ensure_positive days "days" with
        | .error e => .error e
        | .ok daysOk =>
          let daysInt : ℤ := pyInt daysOk
          let retry_rate := max 0 retry_rate
          let input_price := pricing.input_per_1m
          let output_price := pricing.output_per_1m
          let total_input_tokens := avg_tokens_per_call * calls_per_day * (daysInt : ℚ)
          let output_ratio : ℚ := if include_output then 0.25 else 0
          let total_output_tokens := total_input_tokens * output_ratio
          let total_input_tokens := total_input_tokens * (1 + retry_rate)
          let total_output_tokens := total_output_tokens * (1 + retry_rate)
          let input_cost := total_input_tokens / 1000000 * input_price
          let output_cost := total_output_tokens / 1000000 * output_price
          let monthly_cost := input_cost + output_cost
          if daysInt = 0 then
            .error .zeroDivision
          else
            .ok {
              monthly_cost := monthly_cost
              daily_cost := monthly_cost / (daysInt : ℚ)
              input_cost := input_cost
              output_cost := output_cost
              total_tokens := total_input_tokens + total_output_tokens
              price_per_1m := input_price
              currency := pricing.currency.getD (metadata.currency.getD "USD")
              pricing_source := pricing.source
              retrieved_at := pricing.retrieved_at
              metadata := metadata
            }

/-- Result dictionary of `estimate_server_cost`. -/
structure ServerCostResult where
  monthly_cost : ℚ
  daily_cost : ℚ
  base_cost : ℚ
  storage_cost : ℚ
  traffic_cost : ℚ
  currency : String
  pricing_source : Option String
  retrieved_at : Option String
  metadata : Metadata
deriving DecidableEq, Repr

/-- `estimate_server_cost` from `calculators.py`: resolves the
`(provider, plan)` record, validates `runtime_hours`, clamps the GB amounts
to `≥ 0`, and computes the runtime-scaled base plus storage and traffic
costs; `daily_cost` always divides by a fixed 30-day month. -/
def estimate_server_cost (db : Database) (provider plan_or_type : String)
    (runtime_hours storage_gb traffic_gb : ℚ) :
    Except CalcError ServerCostResult :=
  match _resolve_server_pricing db provider plan_or_type with
  | .error e => .error e
  | .ok (pricing, metadata) =>
    match _ensure_positive runtime_hours "runtime_hours" with
    | .error e => .error e
    | .ok runtime_hours =>
      let storage_gb := max 0 storage_gb
      let traffic_gb := max 0 traffic_gb
      let base_cost := pricing.base_monthly
      let storage_cost := storage_gb * pricing.storage_gb_price.getD 0
      let traffic_cost := traffic_gb * pricing.traffic_gb_price.getD 0
      let runtime_ratio := runtime_hours / 720
      let adjusted_base := base_cost * runtime_ratio
      let monthly_cost := adjusted_base + storage_cost + traffic_cost
      .ok {
        monthly_cost := monthly_cost
        daily_cost := monthly_cost / 30
        base_cost := adjusted_base
        storage_cost := storage_cost
        traffic_cost := traffic_cost
        currency := pricing.currency.getD (metadata.currency.getD "USD")
        pricing_source := pricing.source
        retrieved_at := pricing.retrieved_at
        metadata := metadata
      }

/-- One entry of the `agents` list handed to `estimate_multi_agent_cost`: a
dictionary whose required keys are checked at runtime, so every field is
optional here. -/
structure AgentSpec where
  name : Option String
  model : Option String
  avg_tokens_per_call : Option ℚ
  calls_per_day : Option ℚ
  include_output : Option Bool
  retry_rate : Option ℚ
deriving DecidableEq, Repr

/-- A `{name, cost}` entry of the multi-agent breakdown. -/
structure NameCost where
  name : String
  cost : ℚ
deriving DecidableEq, Repr

/-- Provenance snapshot stored per model by `estimate_multi_agent_cost`. -/
structure ModelProv where
  retrieved_at : Option String
  source : Option String
deriving DecidableEq, Repr

/-- Result dictionary of `estimate_multi_agent_cost`. -/
structure MultiAgentResult where
  total_monthly_cost : ℚ
  daily_cost : ℚ
  agents : List NameCost
  metadata : List (String × ModelProv)
deriving DecidableEq, Repr

/-- `dict.setdefault` on the metadata snapshot: insert at the end only when
the model key is absent (first-seen provenance wins). -/
def snapshotInsert (snap : List (String × ModelProv)) (model : String)
    (prov : ModelProv) : List (String × ModelProv) :=
  match snap.lookup model with
  | some _ => snap
  | none => snap ++ [(model, prov)]

/-- The names of the required agent fields that are missing, in the order the
source lists them. -/
def missingAgentFields (a : AgentSpec) : List String :=
  (if a.name.isNone then ["name"] else []) ++
  (if a.model.isNone then ["model"] else []) ++
  (if a.avg_tokens_per_call.isNone then ["avg_tokens_per_call"] else []) ++
  (if a.calls_per_day.isNone then ["calls_per_day"] else [])

/-- The `for agent in agents` loop of `estimate_multi_agent_cost`: checks the
required fields of each entry, calls `estimate_llm_cost` with the already
truncated `days`, and threads the breakdown list, the running total and the
provenance snapshot. -/
def multiLoop (db : Database) (daysInt : ℤ) :
    List AgentSpec → List NameCost → ℚ → List (String × ModelProv) →
    Except CalcError (List NameCost × ℚ × List (String × ModelProv))
  | [], breakdown, total, snap => .ok (breakdown, total, snap)
  | a :: rest, breakdown, total, snap =>
    match a.name, a.model, a.avg_tokens_per_call, a.calls_per_day with
    | some nm, some md, some avg, some calls =>
      match estimate_llm_cost db md avg calls (daysInt : ℚ)
          (a.include_output.getD true) (a.retry_rate.getD 0) with
      | .error e => .error e
      | .ok r =>
        multiLoop db daysInt rest
          (breakdown ++ [⟨nm, r.monthly_cost⟩])
          (total + r.monthly_cost)
          (snapshotInsert snap md ⟨r.retrieved_at, r.pricing_source⟩)
    | _, _, _, _ =>
      .error (.valueError ("Agent entry missing fields: " ++
        String.intercalate ", " (missingAgentFields a)))

/-- `estimate_multi_agent_cost` from `calculators.py`: rejects an empty agent
list, validates and truncates `days`, runs the per-agent loop, and divides
the accumulated total by `days` for the daily cost. -/
def estimate_multi_agent_cost (db : Database) (agents : List AgentSpec)
    (days : ℚ) : Except CalcError MultiAgentResult :=
  if agents.isEmpty then
    .error (.valueError "At least one agent definition is required.")
  else
    match _ensure_positive days "days" with
    | .error e => .error e
    | .ok daysOk =>
      let daysInt : ℤ := pyInt daysOk
      match multiLoop db daysInt agents [] 0 [] with
      | .error e => .error e
      | .ok (breakdown, total, snap) =>
        if daysInt = 0 then
          .error .zeroDivision
        else
          .ok {
            total_monthly_cost := total
            daily_cost := total / (daysInt : ℚ)
            agents := breakdown
            metadata := snap
          }

/-! ### Pricing updater (`pricing_updater.py`) -/

/-- `PRICING_REFRESH_TTL_HOURS` from `data_update.py`. -/
def PRICING_REFRESH_TTL_HOURS : ℤ := 24

/-- `should_refresh` from `pricing_updater.py`.  `parse` stands for
`datetime.fromisoformat` (returning the instant in seconds, `none` on a
`ValueError`); `now` is `datetime.now(timezone.utc)` in seconds.  A missing
or falsy (empty) timestamp refreshes, an unparseable one refreshes, and an
instant refreshes iff it is at least the 24-hour TTL in the past. -/
def should_refresh (parse : String → Option ℤ) (now : ℤ)
    (metadata : Metadata) : Bool :=
  match metadata.last_successful_update with
  | none => true
  | some last =>
    if last = "" then true
    else
      match parse last with
      | none => true
      | some last_dt => decide (now - last_dt ≥ PRICING_REFRESH_TTL_HOURS * 3600)

/-- A raw model entry of the refresh provider payload: an arbitrary partial
dictionary, every field possibly missing. -/
structure RawModelEntry where
  name : Option String
  input_per_1m : Option ℚ
  output_per_1m : Option ℚ
  currency : Option String
  source : Option String
  retrieved_at : Option String
  notes : Option String
deriving DecidableEq, Repr

/-- A raw server entry of the refresh provider payload. -/
structure RawServerEntry where
  provider : Option String
  plan : Option String
  base_monthly : Option ℚ
  storage_gb_price : Option ℚ
  traffic_gb_price : Option ℚ
  currency : Option String
  source : Option String
  retrieved_at : Option String
deriving DecidableEq, Repr

/-- The `{models, servers}` payload returned by the refresh provider
(`PricingUpdater.run`). -/
structure PricingPayload where
  models : List RawModelEntry
  servers : List RawServerEntry
deriving DecidableEq, Repr

/-- A fully normalized model entry as `_normalize_model_entry` returns it. -/
structure NormalizedModelEntry where
  name : String
  input_per_1m : ℚ
  output_per_1m : ℚ
  currency : String
  source : String
  retrieved_at : String
  notes : String
deriving DecidableEq, Repr

/-- A fully normalized server entry as `_normalize_server_entry` returns
it. -/
structure NormalizedServerEntry where
  provider : String
  plan : String
  base_monthly : ℚ
  storage_gb_price : ℚ
  traffic_gb_price : ℚ
  currency : String
  source : String
  retrieved_at : String
deriving DecidableEq, Repr

/-- `_normalize_model_entry` from `pricing_updater.py`: requires `name`,
`input_per_1m` and `output_per_1m` (checked in that order), raising a
`ValueError` on the first missing one; fills `currency` from
`PRICING_TARGETS["currency"]` (`"USD"`), `source` from `"google_search"` and
`retrieved_at` from the current UTC time (`now_iso`). -/
def _normalize_model_entry (now_iso : String) (entry : RawModelEntry) :
    Except CalcError NormalizedModelEntry :=
  match entry.name, entry.input_per_1m, entry.output_per_1m with
  | some nm, some inp, some outp =>
    .ok {
      name := nm
      input_per_1m := inp
      output_per_1m := outp
      currency := entry.currency.getD "USD"
      source := entry.source.getD "google_search"
      retrieved_at := entry.retrieved_at.getD now_iso
      notes := entry.notes.getD ""
    }
  | none, _, _ => .error (.valueError "Missing `name` in LLM pricing entry")
  | _, none, _ => .error (.valueError "Missing `input_per_1m` in LLM pricing entry")
  | _, _, none => .error (.valueError "Missing `output_per_1m` in LLM pricing entry")

/-- `_normalize_server_entry` from `pricing_updater.py`: requires `provider`,
`plan` and `base_monthly` (checked in that order), raising a `ValueError` on
the first missing one; fills the per-GB prices with `0.0` and the remaining
fields with the same defaults as the model normalizer. -/
def _normalize_server_entry (now_iso : String) (entry : RawServerEntry) :
    Except CalcError NormalizedServerEntry :=
  match entry.provider, entry.plan, entry.base_monthly with
  | some prov, some pl, some base =>
    .ok {
      provider := prov
      plan := pl
      base_monthly := base
      storage_gb_price := entry.storage_gb_price.getD 0
      traffic_gb_price := entry.traffic_gb_price.getD 0
      currency := entry.currency.getD "USD"
      source := entry.source.getD "google_search"
      retrieved_at := entry.retrieved_at.getD now_iso
    }
  | none, _, _ => .error (.valueError "Missing `provider` in server pricing entry")
  | _, none, _ => .error (.valueError "Missing `plan` in server pricing entry")
  | _, _, none => .error (.valueError "Missing `base_monthly` in server pricing entry")

/-- The `pricing` section of the persisted document as the updater sees it:
either the canonical keyed tables or a raw provider payload (the shape
`update_pricing_database` actually assigns). -/
inductive PricingVal where
  | tables (models : List (String × ModelPricing))
      (servers : List (String × List (String × ServerPricing)))
  | payload (p : PricingPayload)
deriving DecidableEq, Repr

/-- The persisted pricing document as the updater reads and writes it. -/
structure PricingDoc where
  metadata : Metadata
  pricing : PricingVal
deriving DecidableEq, Repr

/-- `update_pricing_database` from `pricing_updater.py` (the function at
lines 127–141, before the name is rebound to an agent).  `store` is the
persisted document (`_load_database`), `payload` the output of
`PricingUpdater.run`, `now_iso` the ISO rendering of `now`.  Returns the
function's return value, the post-state of the persisted document, and
whether `_write_database` ran.  Note: the payload is assigned to
`database["pricing"]` verbatim — no call to `_normalize_model_entry` or
`_normalize_server_entry` occurs on this path. -/
def update_pricing_database (parse : String → Option ℤ) (now : ℤ)
    (now_iso : String) (payload : PricingPayload) (store : PricingDoc)
    (force : Bool) : PricingDoc × PricingDoc × Bool :=
  let database := store
  let metadata := database.metadata
  if !force && !should_refresh parse now metadata then
    (database, store, false)
  else
    let newdb : PricingDoc := {
      metadata := { metadata with last_successful_update := some now_iso }
      pricing := .payload payload
    }
    (newdb, newdb, true)

/-! ### Concrete example data -/

/-- The spec's example model record: `model-x` priced at input `$1`/1M and
output `$2`/1M. -/
def modelX : ModelPricing :=
  { input_per_1m := 1, output_per_1m := 2,
    currency := none, source := none, retrieved_at := none }

/-- An example server plan: base `$100`/month, storage `$1`/GB, traffic
`$0`/GB. -/
def awsBasic : ServerPricing :=
  { base_monthly := 100, storage_gb_price := some 1, traffic_gb_price := some 0,
    currency := none, source := none, retrieved_at := none }

/-- The spec's example store: just `model-x` and the `aws`/`basic` plan. -/
def exampleDb : Database := {
  metadata := { last_successful_update := none, currency := none }
  models := [("model-x", modelX)]
  servers := [("aws", [("basic", awsBasic)])]
}

/-- A toy timestamp parser: only the string `"T"` parses, to the instant `0`.
Used to instantiate the freshness theorems on concrete inputs. -/
def parseT : String → Option ℤ := fun s => if s = "T" then some 0 else none

/-- A document whose `last_successful_update` parses (under `parseT`) to a
just-now instant: not stale at `now = 0`. -/
def freshDoc : PricingDoc :=
  { metadata := { last_successful_update := some "T", currency := some "USD" },
    pricing := .tables [] [] }

/-- A document with no `last_successful_update`: always stale. -/
def staleDoc : PricingDoc :=
  { metadata := { last_successful_update := none, currency := some "USD" },
    pricing := .tables [] [] }

/-- A provider payload whose single model entry is missing the required
`input_per_1m` and `output_per_1m` fields. -/
def badModelEntry : RawModelEntry :=
  { name := some "mystery-model", input_per_1m := none, output_per_1m := none,
    currency := none, source := none, retrieved_at := none, notes := none }

/-- The payload carrying only `badModelEntry`. -/
def badPayload : PricingPayload := { models := [badModelEntry], servers := [] }

/-- `startsWith pat s`: the character list `pat` is an initial segment of
`s`. -/
def startsWith : List Char → List Char → Bool
  | [], _ => true
  | _ :: _, [] => false
  | p :: ps, c :: cs => p == c && startsWith ps cs

/-- `containsSeq pat s`: the character list `pat` occurs contiguously inside
`s`. -/
def containsSeq (pat : List Char) : List Char → Bool
  | [] => startsWith pat []
  | c :: cs => startsWith pat (c :: cs) || containsSeq pat cs

/-- The call the multi-agent loop makes for one agent entry: the required
fields unpacked and handed to `estimate_llm_cost` with the already truncated
`days`, `include_output` defaulting to `true` and `retry_rate` to `0`. -/
def agentEval (db : Database) (daysInt : ℤ) (a : AgentSpec) :
    Except CalcError LlmCostResult :=
  match a.name, a.model, a.avg_tokens_per_call, a.calls_per_day with
  | some _, some md, some avg, some calls =>
    estimate_llm_cost db md avg calls (daysInt : ℚ) (a.include_output.getD true)
      (a.retry_rate.getD 0)
  | _, _, _, _ =>
    .error (.valueError ("Agent entry missing fields: " ++
      String.intercalate ", " (missingAgentFields a)))

/-- The monthly cost of a successful calculator result, `0` on error. -/
def monthlyOf : Except CalcError LlmCostResult → ℚ
  | .ok r => r.monthly_cost
  | .error _ => 0

/-- A concrete agent entry over `model-x` (defaults for `include_output` and
`retry_rate`). -/
def agentResearch : AgentSpec :=
  ⟨some "research", some "model-x", some 2000, some 50, none, none⟩

/-- A second concrete agent entry over `model-x` with explicit
`include_output = false` and `retry_rate = 1/2`. -/
def agentCoder : AgentSpec :=
  ⟨some "coder", some "model-x", some 1000, some 10, some false, some (1/2)⟩

/-! ### Claim theorems -/

/-- The multi-agent loop on a list of agent entries that all evaluate
successfully: it appends one `{name, cost}` entry per agent in input order
and adds each agent's monthly cost to the running total. -/
theorem multiLoop_ok (db : Database) (daysInt : ℤ) :
    ∀ (agents : List AgentSpec) (b : List NameCost) (tot : ℚ)
      (snap : List (String × ModelProv)),
      (∀ a ∈ agents, ∃ r, agentEval db daysInt a = .ok r) →
      ∃ snap', multiLoop db daysInt agents b tot snap =
        .ok (b ++ agents.map
              (fun a => ⟨a.name.getD "", monthlyOf (agentEval db daysInt a)⟩),
             tot + (agents.map (fun a => monthlyOf (agentEval db daysInt a))).sum,
             snap') := by
  intro agents
  induction agents with
  | nil =>
    intro b tot snap _
    exact ⟨snap, by simp [multiLoop]⟩
  | cons a rest ih =>
    intro b tot snap hok
    obtain ⟨r, hr⟩ := hok a (List.mem_cons_self a rest)
    rcases h1 : a.name with _ | nm
    · simp [agentEval, h1] at hr
    rcases h2 : a.model with _ | md
    · simp [agentEval, h1, h2] at hr
    rcases h3 : a.avg_tokens_per_call with _ | avg
    · simp [agentEval, h1, h2, h3] at hr
    rcases h4 : a.calls_per_day with _ | calls
    · simp [agentEval, h1, h2, h3, h4] at hr
    have hcall : estimate_llm_cost db md avg calls (daysInt : ℚ)
        (a.include_output.getD true) (a.retry_rate.getD 0) = .ok r := by
      simpa [agentEval, h1, h2, h3, h4] using hr
    have hagent : agentEval db daysInt a = .ok r := hr
    obtain ⟨snap', hrec⟩ := ih (b ++ [⟨nm, r.monthly_cost⟩]) (tot + r.monthly_cost)
      (snapshotInsert snap md ⟨r.retrieved_at, r.pricing_source⟩)
      (fun x hx => hok x (List.mem_cons_of_mem a hx))
    refine ⟨snap', ?_⟩
    simp only [multiLoop, h1, h2, h3, h4, hcall, hrec]
    have hfa : monthlyOf (agentEval db daysInt a) = r.monthly_cost := by
      rw [hagent, monthlyOf]
    simp [h1, hfa, List.append_assoc, add_assoc]

/-- C4: `should_refresh` returns true when `last_successful_update` is absent
or unparseable (for any parser that rejects the empty string, as
`datetime.fromisoformat` does), and otherwise returns true iff current UTC
time minus the parsed timestamp is at least the 24-hour TTL; in particular it
is true on empty metadata, false on a just-now timestamp, and true on a
25-hours-ago timestamp. -/
theorem should_refresh_spec (parse : String → Option ℤ) (now : ℤ)
    (hp : parse "" = none) :
    (∀ c, should_refresh parse now ⟨none, c⟩ = true) ∧
    (∀ s c, parse s = none → should_refresh parse now ⟨some s, c⟩ = true) ∧
    (∀ s t c, parse s = some t →
      (should_refresh parse now ⟨some s, c⟩ = true ↔
        PRICING_REFRESH_TTL_HOURS * 3600 ≤ now - t)) ∧
    (∀ s t c, parse s = some t → now - t = 0 →
      should_refresh parse now ⟨some s, c⟩ = false) ∧
    (∀ s t c, parse s = some t → now - t = 25 * 3600 →
      should_refresh parse now ⟨some s, c⟩ = true) := by
  have key : ∀ s t c, parse s = some t →
      should_refresh parse now ⟨some s, c⟩ =
        decide (now - t ≥ PRICING_REFRESH_TTL_HOURS * 3600) := by
    intro s t c hs
    have hs' : s ≠ "" := by
      rintro rfl
      rw [hp] at hs
      cases hs
    simp [should_refresh, hs, hs']
  refine ⟨fun c => rfl, ?_, ?_, ?_, ?_⟩
  · intro s c hs
    simp [should_refresh, hs]
  · intro s t c hs
    rw [key s t c hs]
    simp [ge_iff_le]
  · intro s t c hs h0
    rw [key s t c hs, h0]
    simp [PRICING_REFRESH_TTL_HOURS]
  · intro s t c hs h25
    rw [key s t c hs, h25]
    simp [PRICING_REFRESH_TTL_HOURS]

/-- Witness for C4: the three concrete examples under the toy parser. -/
theorem should_refresh_spec_witness :
    should_refresh parseT 0 ⟨none, none⟩ = true ∧
    should_refresh parseT 0 ⟨some "T", none⟩ = false ∧
    should_refresh parseT (25 * 3600) ⟨some "T", none⟩ = true :=
  ⟨(should_refresh_spec parseT 0 (by decide)).1 none,
   (should_refresh_spec parseT 0 (by decide)).2.2.2.1 "T" 0 none (by decide) (by decide),
   (should_refresh_spec parseT (25 * 3600) (by decide)).2.2.2.2 "T" 0 none
     (by decide) (by decide)⟩

/-- C6: when the stored metadata is not stale, `update_pricing_database` with
`force = false` returns the current document and leaves the persisted
document unchanged — no write occurs. -/
theorem update_pricing_database_noop (parse : String → Option ℤ) (now : ℤ)
    (now_iso : String) (payload : PricingPayload) (store : PricingDoc)
    (h : should_refresh parse now store.metadata = false) :
    update_pricing_database parse now now_iso payload store false =
      (store, store, false) := by
  simp [update_pricing_database, h]

/-- Witness for C6: a concrete non-stale document is returned as-is with no
write. -/
theorem update_pricing_database_noop_witness :
    should_refresh parseT 0 freshDoc.metadata = false ∧
    update_pricing_database parseT 0 "NOW" badPayload freshDoc false =
      (freshDoc, freshDoc, false) :=
  ⟨by decide, update_pricing_database_noop parseT 0 "NOW" badPayload freshDoc (by decide)⟩

/-- C1 (evidence of the divergence): on a refresh that runs (stale metadata,
`force = false`), `update_pricing_database` writes the provider payload
verbatim — even though the payload's only model entry fails
`_normalize_model_entry` — and stamps `last_successful_update`; the persisted
document is replaced, not left untouched, and no normalization or abort
happens on this path. -/
theorem update_pricing_database_skips_normalization :
    _normalize_model_entry "NOW" badModelEntry =
      .error (.valueError "Missing `input_per_1m` in LLM pricing entry") ∧
    should_refresh parseT 0 staleDoc.metadata = true ∧
    update_pricing_database parseT 0 "NOW" badPayload staleDoc false =
      ({ metadata := { last_successful_update := some "NOW", currency := some "USD" },
         pricing := .payload badPayload },
       { metadata := { last_successful_update := some "NOW", currency := some "USD" },
         pricing := .payload badPayload }, true) ∧
    ({ metadata := { last_successful_update := some "NOW", currency := some "USD" },
       pricing := .payload badPayload } : PricingDoc) ≠ staleDoc :=
  ⟨rfl, rfl, rfl, by decide⟩

/-- C2: for positive `avg_tokens_per_call` and `calls_per_day`, a positive
integer `days`, `retry_rate ≥ 0` and a model present in the store,
`estimate_llm_cost` computes `total_input_tokens = avg·calls·days`,
`total_output_tokens = 0.25·total_input_tokens` when `include_output` (else
`0`), both scaled by `(1 + retry_rate)`; `input_cost` and `output_cost` are
the totals over 1M times the per-1M prices, `monthly_cost` their sum and
`daily_cost = monthly_cost / days`.  In particular the spec's `model-x`
example yields `monthly_cost = $4.5` and `daily_cost = $0.15`. -/
theorem estimate_llm_cost_formula_spec
    (db : Database) (model : String) (p : ModelPricing)
    (avg calls retry : ℚ) (n : ℕ) (inc : Bool)
    (hm : db.models.lookup model = some p)
    (ha : 0 < avg) (hc : 0 < calls) (hn : 0 < n) (hr : 0 ≤ retry) :
    (∃ r, estimate_llm_cost db model avg calls (n : ℚ) inc retry = .ok r ∧
      r.input_cost =
        avg * calls * (n : ℚ) * (1 + retry) / 1000000 * p.input_per_1m ∧
      r.output_cost =
        (if inc then 0.25 * (avg * calls * (n : ℚ)) else 0) * (1 + retry) / 1000000 *
          p.output_per_1m ∧
      r.monthly_cost = r.input_cost + r.output_cost ∧
      r.daily_cost = r.monthly_cost / (n : ℚ)) ∧
    (∃ r, estimate_llm_cost exampleDb "model-x" 2000 50 30 true 0 = .ok r ∧
      r.monthly_cost = 4.5 ∧ r.daily_cost = 0.15) := by
  constructor
  · have ha' : ¬ avg ≤ 0 := not_le.mpr ha
    have hc' : ¬ calls ≤ 0 := not_le.mpr hc
    have hn0 : (0 : ℚ) < (n : ℚ) := by exact_mod_cast hn
    have hn' : ¬ (n : ℚ) ≤ 0 := not_le.mpr hn0
    have hlt : ¬ (n : ℚ) < 0 := not_lt.mpr hn0.le
    have hfl : ⌊(n : ℚ)⌋ = (n : ℤ) := Int.floor_natCast n
    have hne : ((n : ℤ)) ≠ 0 := by exact_mod_cast hn.ne'
    have hmax : max 0 retry = retry := max_eq_right hr
    simp only [estimate_llm_cost, _resolve_model_pricing, hm, _ensure_positive,
      if_neg ha', if_neg hc', if_neg hn', pyInt, if_neg hlt, hfl, if_neg hne, hmax]
    refine ⟨_, rfl, ?_, ?_, rfl, ?_⟩
    · push_cast
      ring
    · split_ifs <;> push_cast <;> ring
    · push_cast
      ring
  · exact ⟨⟨9/2, 3/20, 3, 3/2, 3750000, 1, "USD", none, none, ⟨none, none⟩⟩,
      by norm_num [estimate_llm_cost, _resolve_model_pricing, _ensure_positive,
        exampleDb, modelX, pyInt, List.lookup],
      by norm_num, by norm_num⟩

/-- Witness for C2: the theorem applied to the spec's `model-x` example. -/
theorem estimate_llm_cost_formula_spec_witness :
    (∃ r, estimate_llm_cost exampleDb "model-x" 2000 50 ((30 : ℕ) : ℚ) true 0 = .ok r ∧
      r.input_cost =
        2000 * 50 * ((30 : ℕ) : ℚ) * (1 + 0) / 1000000 * modelX.input_per_1m ∧
      r.output_cost =
        (if true then 0.25 * (2000 * 50 * ((30 : ℕ) : ℚ)) else 0) * (1 + 0) / 1000000 *
          modelX.output_per_1m ∧
      r.monthly_cost = r.input_cost + r.output_cost ∧
      r.daily_cost = r.monthly_cost / ((30 : ℕ) : ℚ)) ∧
    (∃ r, estimate_llm_cost exampleDb "model-x" 2000 50 30 true 0 = .ok r ∧
      r.monthly_cost = 4.5 ∧ r.daily_cost = 0.15) :=
  estimate_llm_cost_formula_spec exampleDb "model-x" modelX 2000 50 0 30 true
    (by simp [exampleDb, List.lookup]) (by norm_num) (by norm_num) (by norm_num)
    (by norm_num)

/-- C7 counterexample: at `runtime_hours = 720`, `storage_gb = -1`,
`traffic_gb = 0` on the `aws`/`basic` record, the code clamps the storage
amount to `0` and returns `monthly_cost = 100`, while the claim's formula
`base·(h/720) + storage_gb·storage_price + traffic_gb·traffic_price`
evaluates to `99`. -/
theorem estimate_server_cost_negative_storage_clamped :
    (∃ r, estimate_server_cost exampleDb "aws" "basic" 720 (-1) 0 = .ok r ∧
      r.monthly_cost = 100) ∧
    (100 : ℚ) ≠ awsBasic.base_monthly * (720 / 720) +
      (-1) * awsBasic.storage_gb_price.getD 0 + 0 * awsBasic.traffic_gb_price.getD 0 := by
  constructor
  · exact ⟨⟨100, 10/3, 100, 0, 0, "USD", none, none, ⟨none, none⟩⟩,
      by norm_num [estimate_server_cost, _resolve_server_pricing, _ensure_positive,
        exampleDb, awsBasic, List.lookup], rfl⟩
  · norm_num [awsBasic]

/-- C7 (amended): with `runtime_hours > 0` and the `(provider, plan)` record
present, `monthly_cost = base_monthly·(runtime_hours/720) +
max(0, storage_gb)·storage_gb_price + max(0, traffic_gb)·traffic_gb_price`
(the GB amounts are clamped to `≥ 0` before use) and
`daily_cost = monthly_cost / 30` regardless of `runtime_hours`; with
`runtime_hours = 720` the adjusted base equals `base_monthly` exactly. -/
theorem estimate_server_cost_formula
    (db : Database) (provider plan : String)
    (plans : List (String × ServerPricing)) (p : ServerPricing)
    (h s t : ℚ)
    (hp : db.servers.lookup provider = some plans)
    (hpl : plans.lookup plan = some p)
    (hh : 0 < h) :
    ∃ r, estimate_server_cost db provider plan h s t = .ok r ∧
      r.monthly_cost = p.base_monthly * (h / 720) +
        max 0 s * p.storage_gb_price.getD 0 + max 0 t * p.traffic_gb_price.getD 0 ∧
      r.daily_cost = r.monthly_cost / 30 ∧
      r.base_cost = p.base_monthly * (h / 720) ∧
      (h = 720 → r.base_cost = p.base_monthly) := by
  have hh' : ¬ h ≤ 0 := not_le.mpr hh
  simp only [estimate_server_cost, _resolve_server_pricing, hp, hpl,
    _ensure_positive, if_neg hh']
  refine ⟨_, rfl, by ring, rfl, rfl, ?_⟩
  rintro rfl
  norm_num

/-- Witness for C7: the amended formula at `runtime_hours = 720`,
`storage_gb = 20`, `traffic_gb = 50` on the example store. -/
theorem estimate_server_cost_formula_witness :
    ∃ r, estimate_server_cost exampleDb "aws" "basic" 720 20 50 = .ok r ∧
      r.monthly_cost = awsBasic.base_monthly * (720 / 720) +
        max 0 20 * awsBasic.storage_gb_price.getD 0 +
        max 0 50 * awsBasic.traffic_gb_price.getD 0 ∧
      r.daily_cost = r.monthly_cost / 30 ∧
      r.base_cost = awsBasic.base_monthly * (720 / 720) ∧
      ((720 : ℚ) = 720 → r.base_cost = awsBasic.base_monthly) :=
  estimate_server_cost_formula exampleDb "aws" "basic" [("basic", awsBasic)] awsBasic
    720 20 50 (by simp [exampleDb, List.lookup]) (by simp [List.lookup]) (by norm_num)

/-- C8 counterexample: `days = 1/2` satisfies `days > 0`, but `int(days)` is
`0` and `estimate_llm_cost` raises `ZeroDivisionError` instead of returning a
result with a positive coerced `days`. -/
theorem estimate_llm_cost_fractional_days_zero_division :
    (0 : ℚ) < 1 / 2 ∧
    estimate_llm_cost exampleDb "model-x" 2000 50 (1 / 2) true 0 =
      .error .zeroDivision := by
  constructor
  · norm_num
  · norm_num [estimate_llm_cost, _resolve_model_pricing, _ensure_positive,
      exampleDb, modelX, pyInt, List.lookup]

/-- C8 (amended): with the model present and the other preconditions met,
`days ≥ 1` (integer or not) is truncated to the positive integer `⌊days⌋`
and the result is well defined with `daily_cost = monthly_cost / int(days)`;
but for `0 < days < 1` truncation yields `0` and the call raises
`ZeroDivisionError` instead of returning a result. -/
theorem estimate_llm_cost_days_truncation
    (db : Database) (model : String) (p : ModelPricing)
    (avg calls retry days : ℚ) (inc : Bool)
    (hm : db.models.lookup model = some p)
    (ha : 0 < avg) (hc : 0 < calls) (hd : 1 ≤ days) (hr : 0 ≤ retry) :
    0 < pyInt days ∧
    (∃ r, estimate_llm_cost db model avg calls days inc retry = .ok r ∧
      r.daily_cost = r.monthly_cost / (pyInt days : ℚ)) ∧
    (∀ d : ℚ, 0 < d → d < 1 →
      estimate_llm_cost db model avg calls d inc retry = .error .zeroDivision) := by
  have hd0 : (0 : ℚ) < days := lt_of_lt_of_le one_pos hd
  have hpy : pyInt days = ⌊days⌋ := by
    rw [pyInt, if_neg (not_lt.mpr hd0.le)]
  have hflpos : 0 < ⌊days⌋ := by
    have : (1 : ℤ) ≤ ⌊days⌋ := by
      rw [Int.le_floor]
      exact_mod_cast hd
    omega
  have ha' : ¬ avg ≤ 0 := not_le.mpr ha
  have hc' : ¬ calls ≤ 0 := not_le.mpr hc
  refine ⟨hpy ▸ hflpos, ?_, ?_⟩
  · have hd' : ¬ days ≤ 0 := not_le.mpr hd0
    have hne : ⌊days⌋ ≠ 0 := hflpos.ne'
    simp only [estimate_llm_cost, _resolve_model_pricing, hm, _ensure_positive,
      if_neg ha', if_neg hc', if_neg hd', pyInt, if_neg (not_lt.mpr hd0.le),
      if_neg hne]
    exact ⟨_, rfl, rfl⟩
  · intro d h0 h1
    have hd' : ¬ d ≤ 0 := not_le.mpr h0
    have hfl0 : ⌊d⌋ = 0 := by
      rw [Int.floor_eq_zero_iff]
      exact ⟨h0.le, h1⟩
    simp [estimate_llm_cost, _resolve_model_pricing, hm, _ensure_positive,
      if_neg ha', if_neg hc', if_neg hd', pyInt, not_lt.mpr h0.le, hfl0]

/-- Witness for C8: the amended statement at `days = 3/2` (truncated to `1`)
on the example store. -/
theorem estimate_llm_cost_days_truncation_witness :
    0 < pyInt (3 / 2) ∧
    (∃ r, estimate_llm_cost exampleDb "model-x" 2000 50 (3 / 2) true 0 = .ok r ∧
      r.daily_cost = r.monthly_cost / (pyInt (3 / 2) : ℚ)) ∧
    (∀ d : ℚ, 0 < d → d < 1 →
      estimate_llm_cost exampleDb "model-x" 2000 50 d true 0 = .error .zeroDivision) :=
  estimate_llm_cost_days_truncation exampleDb "model-x" modelX 2000 50 0 (3 / 2) true
    (by simp [exampleDb, List.lookup]) (by norm_num) (by norm_num) (by norm_num)
    (by norm_num)

/-- C9: `estimate_llm_cost` resolves the model before validating the numeric
parameters: with the model absent it fails with the `KeyError` lookup error
whatever the other arguments are, and a `ValueError` can only arise when the
model is present. -/
theorem model_resolution_precedes_validation
    (db : Database) (model : String) (avg calls days retry : ℚ) (inc : Bool) :
    (db.models.lookup model = none →
      estimate_llm_cost db model avg calls days inc retry =
        .error (.keyError s!"Model `{model}` not found in pricing database.")) ∧
    (∀ m, estimate_llm_cost db model avg calls days inc retry =
        .error (.valueError m) → ∃ p, db.models.lookup model = some p) := by
  constructor
  · intro h
    simp [estimate_llm_cost, _resolve_model_pricing, h]
  · intro m hm
    cases hl : db.models.lookup model with
    | none =>
      exfalso
      simp [estimate_llm_cost, _resolve_model_pricing, hl] at hm
    | some p => exact ⟨p, rfl⟩

/-- Witness for C9: on the example store, an unknown model with invalid
numeric arguments still gets the lookup `KeyError`, and a `ValueError` on
`model-x` implies `model-x` is present. -/
theorem model_resolution_precedes_validation_witness :
    (estimate_llm_cost exampleDb "absent-model" (-5) 0 0 true (-1) =
      .error (.keyError "Model `absent-model` not found in pricing database.")) ∧
    (∃ p, exampleDb.models.lookup "model-x" = some p) :=
  ⟨(model_resolution_precedes_validation exampleDb "absent-model" (-5) 0 0 (-1) true).1
      (by decide),
   (model_resolution_precedes_validation exampleDb "model-x" (-5) 50 30 0 true).2
      ("avg_tokens_per_call" ++ " must be greater than zero")
      (by norm_num [estimate_llm_cost, _resolve_model_pricing, _ensure_positive,
        exampleDb, modelX, List.lookup])⟩

/-- C10: the currency of every successful `estimate_llm_cost` or
`estimate_server_cost` result is the resolved record's `currency` when
present, else the document metadata's `currency` when present, else
`"USD"`. -/
theorem result_currency_fallback_chain
    (db : Database) (model provider plan : String)
    (avg calls days retry h s t : ℚ) (inc : Bool) :
    (∀ r, estimate_llm_cost db model avg calls days inc retry = .ok r →
      ∃ p, db.models.lookup model = some p ∧
        r.currency = p.currency.getD (db.metadata.currency.getD "USD")) ∧
    (∀ r, estimate_server_cost db provider plan h s t = .ok r →
      ∃ plans p, db.servers.lookup provider = some plans ∧
        plans.lookup plan = some p ∧
        r.currency = p.currency.getD (db.metadata.currency.getD "USD")) := by
  constructor
  · intro r hr
    cases hl : db.models.lookup model with
    | none => simp [estimate_llm_cost, _resolve_model_pricing, hl] at hr
    | some p =>
      refine ⟨p, rfl, ?_⟩
      simp only [estimate_llm_cost, _resolve_model_pricing, hl] at hr
      split at hr
      · exact Except.noConfusion hr
      split at hr
      · exact Except.noConfusion hr
      split at hr
      · exact Except.noConfusion hr
      split at hr
      · exact Except.noConfusion hr
      cases hr
      rfl
  · intro r hr
    cases hl : db.servers.lookup provider with
    | none => simp [estimate_server_cost, _resolve_server_pricing, hl] at hr
    | some plans =>
      cases hpl : plans.lookup plan with
      | none => simp [estimate_server_cost, _resolve_server_pricing, hl, hpl] at hr
      | some p =>
        refine ⟨plans, p, rfl, hpl, ?_⟩
        simp only [estimate_server_cost, _resolve_server_pricing, hl, hpl] at hr
        split at hr
        · exact Except.noConfusion hr
        cases hr
        rfl

/-- Witness for C10: the fallback chain observed on two concrete successful
calls against the example store (both records lack a `currency`, the
metadata lacks one too, so the result currency is `"USD"`). -/
theorem result_currency_fallback_chain_witness :
    (∃ p, exampleDb.models.lookup "model-x" = some p ∧
      "USD" = p.currency.getD (exampleDb.metadata.currency.getD "USD")) ∧
    (∃ plans p, exampleDb.servers.lookup "aws" = some plans ∧
      plans.lookup "basic" = some p ∧
      "USD" = p.currency.getD (exampleDb.metadata.currency.getD "USD")) :=
  ⟨(result_currency_fallback_chain exampleDb "model-x" "aws" "basic"
      2000 50 30 0 720 20 50 true).1
      ⟨9/2, 3/20, 3, 3/2, 3750000, 1, "USD", none, none, ⟨none, none⟩⟩
      (by norm_num [estimate_llm_cost, _resolve_model_pricing, _ensure_positive,
        exampleDb, modelX, pyInt, List.lookup]),
   (result_currency_fallback_chain exampleDb "model-x" "aws" "basic"
      2000 50 30 0 720 20 50 true).2
      ⟨120, 4, 100, 20, 0, "USD", none, none, ⟨none, none⟩⟩
      (by norm_num [estimate_server_cost, _resolve_server_pricing, _ensure_positive,
        exampleDb, awsBasic, List.lookup])⟩

/-- C5 counterexample: the server-lookup failure surfaces the fixed message
naming only the plan and provider; the store's only known provider
identifier, `aws`, does not occur in it — the error does not carry the list
of known identifiers. -/
theorem server_error_lacks_known_identifiers :
    estimate_server_cost exampleDb "linode" "basic" 720 20 50 =
      .error (.keyError "Plan `basic` for provider `linode` not found.") ∧
    exampleDb.servers.map Prod.fst = ["aws"] ∧
    containsSeq "aws".toList
      "Plan `basic` for provider `linode` not found.".toList = false := by
  refine ⟨by decide, rfl, by decide⟩

/-- C5 (amended): a lookup of an absent model, or of an absent provider or
plan, makes the cost formula fail with a `KeyError` carrying the requested
identifier(s) — never a zero-cost or default-priced result; the list of
known identifiers is not part of the error. -/
theorem lookup_error_carries_identifier
    (db : Database) (model provider plan : String)
    (avg calls days retry h s t : ℚ) (inc : Bool) :
    (db.models.lookup model = none →
      estimate_llm_cost db model avg calls days inc retry =
        .error (.keyError s!"Model `{model}` not found in pricing database.")) ∧
    ((db.servers.lookup provider = none ∨
      (∃ plans, db.servers.lookup provider = some plans ∧
        plans.lookup plan = none)) →
      estimate_server_cost db provider plan h s t =
        .error (.keyError s!"Plan `{plan}` for provider `{provider}` not found.")) := by
  constructor
  · intro hnone
    simp [estimate_llm_cost, _resolve_model_pricing, hnone]
  · rintro (hnone | ⟨plans, hp, hpl⟩)
    · simp [estimate_server_cost, _resolve_server_pricing, hnone]
    · simp [estimate_server_cost, _resolve_server_pricing, hp, hpl]

/-- Witness for C5: the amended statement at an absent model and an absent
provider on the example store. -/
theorem lookup_error_carries_identifier_witness :
    estimate_llm_cost exampleDb "absent-model" 2000 50 30 true 0 =
      .error (.keyError "Model `absent-model` not found in pricing database.") ∧
    estimate_server_cost exampleDb "linode" "basic" 720 20 50 =
      .error (.keyError "Plan `basic` for provider `linode` not found.") :=
  ⟨(lookup_error_carries_identifier exampleDb "absent-model" "linode" "basic"
      2000 50 30 0 720 20 50 true).1 (by decide),
   (lookup_error_carries_identifier exampleDb "absent-model" "linode" "basic"
      2000 50 30 0 720 20 50 true).2 (Or.inl (by decide))⟩

/-- C3: for a non-empty agent list whose entries all evaluate successfully
(required fields present, models resolving), `estimate_multi_agent_cost`
returns `total_monthly_cost` equal to the sum, in input order, of each
agent's independently computed `estimate_llm_cost(..., days).monthly_cost`,
a `{name, cost}` breakdown in the same input order, and
`daily_cost = total / days`. -/
theorem estimate_multi_agent_cost_spec
    (db : Database) (agents : List AgentSpec) (n : ℕ)
    (hne : agents ≠ []) (hn : 0 < n)
    (hok : ∀ a ∈ agents, ∃ r, agentEval db (n : ℤ) a = .ok r) :
    ∃ res, estimate_multi_agent_cost db agents (n : ℚ) = .ok res ∧
      res.total_monthly_cost =
        (agents.map (fun a => monthlyOf (agentEval db (n : ℤ) a))).sum ∧
      res.agents =
        agents.map (fun a => ⟨a.name.getD "", monthlyOf (agentEval db (n : ℤ) a)⟩) ∧
      res.daily_cost = res.total_monthly_cost / ((n : ℤ) : ℚ) := by
  have hn0 : (0 : ℚ) < (n : ℚ) := by exact_mod_cast hn
  have hempty : agents.isEmpty = false := by
    simpa [List.isEmpty_iff] using hne
  have hpy : pyInt ((n : ℕ) : ℚ) = (n : ℤ) := by
    rw [pyInt, if_neg (not_lt.mpr hn0.le), Int.floor_natCast]
  have hne' : ((n : ℤ)) ≠ 0 := by exact_mod_cast hn.ne'
  obtain ⟨snap', hloop⟩ := multiLoop_ok db (n : ℤ) agents [] 0 [] hok
  simp only [estimate_multi_agent_cost, hempty, _ensure_positive,
    if_neg (not_le.mpr hn0), hpy, hloop, if_neg hne', Bool.false_eq_true,
    if_false]
  exact ⟨_, rfl, by simp, by simp, by simp⟩

/-- Witness for C3: two concrete agents over `model-x` with `days = 30`. -/
theorem estimate_multi_agent_cost_spec_witness :
    ∃ res, estimate_multi_agent_cost exampleDb [agentResearch, agentCoder]
        ((30 : ℕ) : ℚ) = .ok res ∧
      res.total_monthly_cost =
        ([agentResearch, agentCoder].map
          (fun a => monthlyOf (agentEval exampleDb ((30 : ℕ) : ℤ) a))).sum ∧
      res.agents =
        [agentResearch, agentCoder].map
          (fun a => ⟨a.name.getD "", monthlyOf (agentEval exampleDb ((30 : ℕ) : ℤ) a)⟩) ∧
      res.daily_cost = res.total_monthly_cost / (((30 : ℕ) : ℤ) : ℚ) :=
  estimate_multi_agent_cost_spec exampleDb [agentResearch, agentCoder] 30
    (by simp) (by norm_num)
    (by
      intro a ha
      simp only [List.mem_cons, List.not_mem_nil, or_false] at ha
      rcases ha with rfl | rfl
      · exact ⟨⟨9/2, 3/20, 3, 3/2, 3750000, 1, "USD", none, none, ⟨none, none⟩⟩,
          by norm_num [agentEval, agentResearch, estimate_llm_cost,
            _resolve_model_pricing, _ensure_positive, exampleDb, modelX, pyInt,
            List.lookup]⟩
      · exact ⟨⟨9/20, 3/200, 9/20, 0, 450000, 1, "USD", none, none, ⟨none, none⟩⟩,
          by norm_num [agentEval, agentCoder, estimate_llm_cost,
            _resolve_model_pricing, _ensure_positive, exampleDb, modelX, pyInt,
            List.lookup]⟩)

end TokenTracker
